import Mathlib

/-!
Verification development for the ecobot thermal-plant savings pipeline.

Shallow embedding of the repository's numerical core over the rationals:
generator.py (physical parameter model and synthetic data generator),
predict_user.py (inference and savings engine plus forecast orchestrator),
and trainer.py (per-fuel training loop and sample-store truncation).
Randomness in the source (noise factors, uniform draws) is made explicit
as parameters; external collaborators (joblib model store, weather and
location suppliers, sklearn fitting) appear as abstract parameters.
-/

namespace EcoBot

/-! ## Physical parameter model (generator.py) -/

/-- Per-fuel-type constants, one record per entry of
MultiFuelPlantGenerator.fuel_types in generator.py. -/
structure FuelConfig where
  efficiency_range : ℚ × ℚ
  heat_rate_range : ℚ × ℚ
  capacity_range : ℚ × ℚ
  temp_sensitivity : ℚ
  humidity_sensitivity : ℚ
  pressure_sensitivity : ℚ
  fuel_lhv : ℚ
  fuel_unit : String
  fuel_cost_range : ℚ × ℚ
  co2_factor : ℚ
  density : ℚ

/-- The coal entry of fuel_types. -/
def coalConfig : FuelConfig :=
  { efficiency_range := (0.32, 0.46)
    heat_rate_range := (2000, 2600)
    capacity_range := (200, 800)
    temp_sensitivity := 0.0018
    humidity_sensitivity := 0.0008
    pressure_sensitivity := 0.0006
    fuel_lhv := 7000
    fuel_unit := "kg"
    fuel_cost_range := (5000, 7000)
    co2_factor := 2.42
    density := 1.0 }

/-- The oil entry of fuel_types. -/
def oilConfig : FuelConfig :=
  { efficiency_range := (0.36, 0.42)
    heat_rate_range := (2100, 2400)
    capacity_range := (100, 400)
    temp_sensitivity := 0.0015
    humidity_sensitivity := 0.0007
    pressure_sensitivity := 0.0005
    fuel_lhv := 10000
    fuel_unit := "liters"
    fuel_cost_range := (600, 900)
    co2_factor := 2.96
    density := 0.85 }

/-- The natural_gas entry of fuel_types. -/
def naturalGasConfig : FuelConfig :=
  { efficiency_range := (0.40, 0.60)
    heat_rate_range := (1430, 2150)
    capacity_range := (50, 600)
    temp_sensitivity := 0.0012
    humidity_sensitivity := 0.0005
    pressure_sensitivity := 0.0008
    fuel_lhv := 8500
    fuel_unit := "Nm3"
    fuel_cost_range := (200, 400)
    co2_factor := 2.0
    density := 0.72 }

/-- Lookup in the fuel_types dict of generator.py. -/
def fuel_types (fuel_type : String) : Option FuelConfig :=
  if fuel_type = "coal" then some coalConfig
  else if fuel_type = "oil" then some oilConfig
  else if fuel_type = "natural_gas" then some naturalGasConfig
  else none

/-- Python round(x, 4) ties-to-even, on the scaled value: round half to even. -/
def round_half_even (q : ℚ) : ℤ :=
  if q - ⌊q⌋ < 1/2 then ⌊q⌋
  else if 1/2 < q - ⌊q⌋ then ⌊q⌋ + 1
  else if 2 ∣ ⌊q⌋ then ⌊q⌋ else ⌊q⌋ + 1

/-- Python round(x, 4): round to 4 decimal places. -/
def round4 (q : ℚ) : ℚ := (round_half_even (q * 10000) : ℚ) / 10000

/-- Efficiency after clipping to the fuel's range and before the final noise
factor: the value of the local variable called efficiency right after the
clip-to-range line of MultiFuelPlantGenerator.calculate_efficiency.
The timestamp argument of the source enters only through the day count
since 2020-01-01, passed here directly as days_since_start. -/
def clipped_efficiency (config : FuelConfig) (temp_C humidity pressure_hPa run_hours : ℚ)
    (days_since_start : ℤ) (load_factor : ℚ) : ℚ :=
  let base_efficiency := (config.efficiency_range.1 + config.efficiency_range.2) / 2
  let load_factor_adj := 1 - |load_factor - 0.9| * 0.08
  let base_efficiency := base_efficiency * load_factor_adj
  let temp_factor := 1 - config.temp_sensitivity * (temp_C - 25)
  let humidity_factor := 1 - config.humidity_sensitivity * (humidity - 40)
  let pressure_factor := 1 + config.pressure_sensitivity * (pressure_hPa - 1013.25)
  let hours_factor :=
    if run_hours < 4 then (0.95 : ℚ)
    else if run_hours < 8 then 0.98
    else 1.0 + 0.00005 * (run_hours - 8)
  let degradation_factor := 1 - (days_since_start : ℚ) * 0.00005
  let efficiency := base_efficiency * temp_factor * humidity_factor * pressure_factor *
    hours_factor * degradation_factor
  max config.efficiency_range.1 (min config.efficiency_range.2 efficiency)

/-- MultiFuelPlantGenerator.calculate_efficiency of generator.py.
The random.uniform(0.995, 1.005) noise draw is the explicit noise argument. -/
def calculate_efficiency (config : FuelConfig) (temp_C humidity pressure_hPa run_hours : ℚ)
    (days_since_start : ℤ) (load_factor : ℚ) (noise : ℚ) : ℚ :=
  round4 (clipped_efficiency config temp_C humidity pressure_hPa run_hours
    days_since_start load_factor * noise)

/-- The per-fuel-type branch of generate_realistic_data (generator.py lines
148-173): fuel-per-kWh, current and recommended fuel use, cost draw, unit
label, and CO2 saved.  none corresponds to the final else: continue branch. -/
structure FuelCalc where
  fuel_per_kwh : ℚ
  fuel_used_current : ℚ
  fuel_used_recommended : ℚ
  fuel_cost_per_unit : ℚ
  fuel_unit : String
  co2_saved : ℚ

/-- Fuel-specific calculations of generate_realistic_data.  The
random.uniform draw from fuel_cost_range is the explicit cost_draw argument. -/
def fuel_specific_calc (fuel_type : String) (config : FuelConfig)
    (current_generation_mw base_generation run_hours heat_rate_kcal_per_kwh cost_draw : ℚ) :
    Option FuelCalc :=
  if fuel_type = "coal" then
    let fuel_per_kwh := heat_rate_kcal_per_kwh / config.fuel_lhv
    let fuel_used_current := (current_generation_mw * 1000) * fuel_per_kwh * run_hours / 1000
    let fuel_used_recommended := (base_generation * 1000) * fuel_per_kwh * run_hours / 1000
    some { fuel_per_kwh := fuel_per_kwh
           fuel_used_current := fuel_used_current
           fuel_used_recommended := fuel_used_recommended
           fuel_cost_per_unit := cost_draw
           fuel_unit := "ton"
           co2_saved := (fuel_used_current - fuel_used_recommended) * config.co2_factor }
  else if fuel_type = "oil" then
    let fuel_per_kwh := heat_rate_kcal_per_kwh / (config.fuel_lhv * config.density)
    let fuel_used_current := (current_generation_mw * 1000) * fuel_per_kwh * run_hours / 1000
    let fuel_used_recommended := (base_generation * 1000) * fuel_per_kwh * run_hours / 1000
    let fuel_used_current_tonnes := fuel_used_current * config.density / 1000
    let fuel_used_recommended_tonnes := fuel_used_recommended * config.density / 1000
    some { fuel_per_kwh := fuel_per_kwh
           fuel_used_current := fuel_used_current
           fuel_used_recommended := fuel_used_recommended
           fuel_cost_per_unit := cost_draw
           fuel_unit := "barrel"
           co2_saved := (fuel_used_current_tonnes - fuel_used_recommended_tonnes) *
             config.co2_factor }
  else if fuel_type = "natural_gas" then
    let fuel_per_kwh := heat_rate_kcal_per_kwh / config.fuel_lhv
    let fuel_used_current := (current_generation_mw * 1000) * fuel_per_kwh * run_hours / 1000
    let fuel_used_recommended := (base_generation * 1000) * fuel_per_kwh * run_hours / 1000
    some { fuel_per_kwh := fuel_per_kwh
           fuel_used_current := fuel_used_current
           fuel_used_recommended := fuel_used_recommended
           fuel_cost_per_unit := cost_draw
           fuel_unit := "1000Nm3"
           co2_saved := (fuel_used_current - fuel_used_recommended) * config.co2_factor / 1000 }
  else none

/-! ## Inference and savings engine (predict_user.py) -/

/-- Input record of predict_outputs: the sample_input dict plus the three
per-day weather keys that func1 writes into its copy. -/
structure InputData where
  fuel_type : String
  max_capacity_mw : ℚ
  run_hours : ℚ
  temp_C : ℚ
  humidity_pct : ℚ
  pressure_hPa : ℚ
  fuel_used_current : ℚ

/-- Dict get with default for the base-efficiency table of
calc_recommended_efficiency. -/
def base_eff_of (fuel_type : String) : ℚ :=
  if fuel_type = "coal" then 0.38
  else if fuel_type = "oil" then 0.42
  else if fuel_type = "natural_gas" then 0.50
  else 0.40

/-- calc_recommended_efficiency of predict_user.py. -/
def calc_recommended_efficiency (fuel_type : String) (temp_C humidity pressure_hPa : ℚ) : ℚ :=
  let base_eff := base_eff_of fuel_type
  let temp_factor := 1 - 0.002 * (temp_C - 25)
  let humidity_factor := 1 - 0.001 * (humidity - 40)
  let pressure_factor := 1 + 0.0005 * (pressure_hPa - 1013.25)
  base_eff * temp_factor * humidity_factor * pressure_factor

/-- fuel_per_kwh_map.get(fuel_type, 0.3) of predict_outputs. -/
def fuel_per_kwh_map (fuel_type : String) : ℚ :=
  if fuel_type = "coal" then 0.35
  else if fuel_type = "oil" then 0.25
  else if fuel_type = "natural_gas" then 0.20
  else 0.3

/-- fuel_cost_map.get(fuel_type, 500) of predict_outputs. -/
def fuel_cost_map (fuel_type : String) : ℚ :=
  if fuel_type = "coal" then 6000
  else if fuel_type = "oil" then 700
  else if fuel_type = "natural_gas" then 300
  else 500

/-- co2_factor_map.get(fuel_type, 2.5) of predict_outputs. -/
def co2_factor_map (fuel_type : String) : ℚ :=
  if fuel_type = "coal" then 2.42
  else if fuel_type = "oil" then 2.96
  else if fuel_type = "natural_gas" then 2.0
  else 2.5

/-- A persisted regressor is abstracted as a prediction function on the
feature record; the joblib store keyed by fuel type is a partial map. -/
def ModelStore : Type := String → Option (InputData → ℚ)

/-- DummyModel.predict of predict_outputs: the fallback used when
joblib.load raises for the fuel type. -/
def dummy_predict (input_data : InputData) : ℚ := input_data.max_capacity_mw * 0.7

/-- Model resolution of predict_outputs: the persisted model for the fuel
type if present, else the DummyModel fallback. -/
def loaded_model (store : ModelStore) (input_data : InputData) : InputData → ℚ :=
  (store input_data.fuel_type).getD dummy_predict

/-- The local current_generation_mw of predict_outputs: the model prediction
on the five-feature row (computed there but unused downstream). -/
def current_generation_mw (store : ModelStore) (input_data : InputData) : ℚ :=
  loaded_model store input_data input_data

/-- Output dict of predict_outputs. -/
structure Outputs where
  recommended_generation_mw : ℚ
  fuel_used_recommended : ℚ
  fuel_saved : ℚ
  cost_saved : ℚ
  co2_saved_tonnes : ℚ
  recommended_efficiency : ℚ

/-- predict_outputs of predict_user.py. -/
def predict_outputs (store : ModelStore) (input_data : InputData) : Outputs :=
  let _current_generation_mw := current_generation_mw store input_data
  let max_capacity := input_data.max_capacity_mw
  let run_hours := input_data.run_hours
  let fuel_used_current := input_data.fuel_used_current
  let recommended_efficiency := calc_recommended_efficiency input_data.fuel_type
    input_data.temp_C input_data.humidity_pct input_data.pressure_hPa
  let recommended_generation_mw := max_capacity * recommended_efficiency
  let recommended_energy_kwh := recommended_generation_mw * 1000 * run_hours
  let fuel_per_kwh := fuel_per_kwh_map input_data.fuel_type
  let fuel_used_recommended := recommended_energy_kwh * fuel_per_kwh / 1000
  let fuel_saved := fuel_used_current - fuel_used_recommended
  let fuel_cost_per_unit := fuel_cost_map input_data.fuel_type
  let cost_saved := fuel_saved * fuel_cost_per_unit
  let co2_factor := co2_factor_map input_data.fuel_type
  let co2_saved_tonnes := fuel_saved * co2_factor
  { recommended_generation_mw := recommended_generation_mw
    fuel_used_recommended := fuel_used_recommended
    fuel_saved := fuel_saved
    cost_saved := cost_saved
    co2_saved_tonnes := co2_saved_tonnes
    recommended_efficiency := recommended_efficiency }

/-- Python int() on the rational value: truncation toward zero
(num and den of a normalized rational, with T-division). -/
def pyInt (q : ℚ) : ℤ := q.num.tdiv q.den

/-- f2 of predict_user.py: int(no*100)/100. -/
def f2 (no : ℚ) : ℚ := (pyInt (no * 100) : ℚ) / 100

/-- One record of the external weather forecast consumed by func1. -/
structure ForecastDay where
  date : String
  temp_C : ℚ
  humidity_pct : ℚ
  pressure_hPa : ℚ

/-- One row appended to the list l in func1 (positional list
[date, gen, fuel_rec, fuel_saved, cost_saved, co2, eff] as named fields). -/
structure DailyRow where
  date : String
  recommended_generation_mw : ℚ
  fuel_used_recommended : ℚ
  fuel_saved : ℚ
  cost_saved : ℚ
  co2_saved_tonnes : ℚ
  recommended_efficiency : ℚ

/-- The copy-and-overwrite step at the top of the per-day loop of func1:
input_data = sample_input.copy() with the three weather keys replaced by the
day's values. -/
def weather_subst (sample_input : InputData) (day : ForecastDay) : InputData :=
  { sample_input with
    temp_C := day.temp_C
    humidity_pct := day.humidity_pct
    pressure_hPa := day.pressure_hPa }

/-- The body of the per-day loop of func1: copy the sample input, overwrite
the three weather fields with the day's values, run predict_outputs, and
truncate the six quantities with f2. -/
def make_row (store : ModelStore) (sample_input : InputData) (day : ForecastDay) : DailyRow :=
  let outputs := predict_outputs store (weather_subst sample_input day)
  { date := day.date
    recommended_generation_mw := f2 outputs.recommended_generation_mw
    fuel_used_recommended := f2 outputs.fuel_used_recommended
    fuel_saved := f2 outputs.fuel_saved
    cost_saved := f2 outputs.cost_saved
    co2_saved_tonnes := f2 outputs.co2_saved_tonnes
    recommended_efficiency := f2 outputs.recommended_efficiency }

/-- func1 of predict_user.py, from the point where the forecast list is in
hand: l = [] followed by the per-day append loop.  GPS and weather fetching
are external; the fetched forecast is the explicit forecast argument. -/
def func1 (store : ModelStore) (sample_input : InputData) (forecast : List ForecastDay) :
    List DailyRow :=
  forecast.foldl (fun l day => l ++ [make_row store sample_input day]) []

/-! ## Regression trainer (trainer.py) -/

/-- One row of plant_data.csv as consumed by trainer.py: the fuel_type
grouping column, the five feature columns, and the label column. -/
structure SampleRow where
  fuel_type : String
  max_capacity_mw : ℚ
  run_hours : ℚ
  temp_C : ℚ
  humidity_pct : ℚ
  pressure_hPa : ℚ
  current_generation_mw : ℚ
deriving DecidableEq

/-- Constructor arguments of the trainer's RandomForestRegressor together
with the train_test_split arguments. -/
structure RFParams where
  n_estimators : ℕ
  random_state : ℕ
  n_jobs : ℤ
  max_depth : ℕ
  test_size : ℚ
  split_random_state : ℕ

/-- The literal hyperparameters of trainer.py: n_estimators=200,
random_state=42, n_jobs=-1, max_depth=12, test_size=0.2 with split seed 42. -/
def trainer_params : RFParams :=
  { n_estimators := 200
    random_state := 42
    n_jobs := -1
    max_depth := 12
    test_size := 0.2
    split_random_state := 42 }

/-- df['fuel_type'].unique(): distinct fuel types in order of first
appearance. -/
def unique_fuels (rows : List SampleRow) : List String :=
  rows.foldl (fun acc r => if r.fuel_type ∈ acc then acc else acc ++ [r.fuel_type]) []

/-- fuel_df = df[df['fuel_type'] == fuel]. -/
def rows_for (rows : List SampleRow) (fuel : String) : List SampleRow :=
  rows.filter (fun r => r.fuel_type = fuel)

/-- One training-loop step of trainer.py: accumulate either a skip warning
(len(fuel_df) < 5) or a persisted model keyed by the fuel type.  The sklearn
fit (split, ensemble fit, metric report) is the abstract fit argument,
invoked with the literal hyperparameters and the fuel's rows. -/
def train_step {M : Type} (fit : RFParams → List SampleRow → M) (rows : List SampleRow)
    (acc : List String × List (String × M)) (fuel : String) :
    List String × List (String × M) :=
  let fuel_df := rows_for rows fuel
  if fuel_df.length < 5 then (acc.1 ++ [fuel], acc.2)
  else (acc.1, acc.2 ++ [(fuel, fit trainer_params fuel_df)])

/-- The for-loop over df['fuel_type'].unique() in trainer.py, returning the
skip warnings and the models persisted via joblib.dump keyed by fuel type. -/
def train_loop {M : Type} (fit : RFParams → List SampleRow → M) (rows : List SampleRow) :
    List String × List (String × M) :=
  (unique_fuels rows).foldl (train_step fit rows) ([], [])

/-- The sample store plant_data.csv: a header row and data rows. -/
structure Csv where
  header : List String
  rows : List SampleRow

/-- trainer.py end to end: abort (none) when the store is missing or empty
(the os.path.exists / st_size == 0 guard); otherwise run the training loop
and rewrite the store as df.iloc[0:0].to_csv does, keeping the header and
dropping every data row. -/
def trainer_main {M : Type} (fit : RFParams → List SampleRow → M) (csv : Csv) :
    Option (List String × List (String × M) × Csv) :=
  if csv.header = [] ∧ csv.rows = [] then none
  else
    let result := train_loop fit csv.rows
    some (result.1, result.2, { header := csv.header, rows := [] })

/-! ## Specification-side reference definitions -/

/-- Follows the spec's words, not the source: the step-by-step savings
formulas of spec section 4.4, steps (c)-(i), written directly as a record of
closed-form expressions to be compared against predict_outputs. -/
def spec_outcome (input : InputData) : Outputs :=
  let eff := base_eff_of input.fuel_type * (1 - 0.002 * (input.temp_C - 25)) *
    (1 - 0.001 * (input.humidity_pct - 40)) * (1 + 0.0005 * (input.pressure_hPa - 1013.25))
  let gen := input.max_capacity_mw * eff
  let fuel_rec := gen * 1000 * input.run_hours * fuel_per_kwh_map input.fuel_type / 1000
  let fs := input.fuel_used_current - fuel_rec
  { recommended_generation_mw := gen
    fuel_used_recommended := fuel_rec
    fuel_saved := fs
    cost_saved := fs * fuel_cost_map input.fuel_type
    co2_saved_tonnes := fs * co2_factor_map input.fuel_type
    recommended_efficiency := eff }

/-- The section-8 scenario input: sample_input of predict_user.py with the
scenario weather day temp 30, humidity 50, pressure 1010 applied. -/
def scenario_input : InputData :=
  { fuel_type := "coal"
    max_capacity_mw := 150
    run_hours := 20
    temp_C := 30
    humidity_pct := 50
    pressure_hPa := 1010
    fuel_used_current := 9000 }

/-- A concrete input with a fuel type outside the three known ones. -/
def unknown_input : InputData :=
  { fuel_type := "wood"
    max_capacity_mw := 100
    run_hours := 10
    temp_C := 25
    humidity_pct := 40
    pressure_hPa := 1013.25
    fuel_used_current := 500 }

/-- The scenario input with zero reported current fuel use, so that the
recommended fuel use exceeds it. -/
def deficit_input : InputData :=
  { fuel_type := "coal"
    max_capacity_mw := 150
    run_hours := 20
    temp_C := 30
    humidity_pct := 50
    pressure_hPa := 1010
    fuel_used_current := 0 }

/-- A trivial stand-in for the sklearn fit, used to instantiate the trainer
theorems at a concrete model type. -/
def unit_fit : RFParams → List SampleRow → Unit := fun _ _ => ()

/-- A single coal sample row used to build concrete sample stores. -/
def coal_row : SampleRow :=
  { fuel_type := "coal"
    max_capacity_mw := 300
    run_hours := 12
    temp_C := 25
    humidity_pct := 40
    pressure_hPa := 1013
    current_generation_mw := 200 }

/-- A single oil sample row used to build concrete sample stores. -/
def oil_row : SampleRow :=
  { fuel_type := "oil"
    max_capacity_mw := 200
    run_hours := 15
    temp_C := 30
    humidity_pct := 50
    pressure_hPa := 1010
    current_generation_mw := 150 }

/-- A sample store with four coal rows (below the skip threshold) and five
oil rows (at the threshold). -/
def mixed_rows : List SampleRow :=
  List.replicate 4 coal_row ++ List.replicate 5 oil_row

/-- A sample store state with the structural header and no data rows. -/
def header_csv : Csv := { header := ["timestamp", "fuel_type"], rows := [] }

/-- Concrete coal branch output of the generator's fuel-specific block at
heat rate 7000, current generation 100 MW, base generation 90 MW,
run hours 20 and cost draw 6000. -/
def coal_calc_example : FuelCalc :=
  { fuel_per_kwh := 1
    fuel_used_current := 2000
    fuel_used_recommended := 1800
    fuel_cost_per_unit := 6000
    fuel_unit := "ton"
    co2_saved := 484 }

/-- Concrete oil branch output at heat rate 8500, current generation 100 MW,
base generation 90 MW, run hours 20 and cost draw 700. -/
def oil_calc_example : FuelCalc :=
  { fuel_per_kwh := 1
    fuel_used_current := 2000
    fuel_used_recommended := 1800
    fuel_cost_per_unit := 700
    fuel_unit := "barrel"
    co2_saved := 0.5032 }

/-- Concrete natural gas branch output at heat rate 8500, current generation
100 MW, base generation 90 MW, run hours 20 and cost draw 300. -/
def gas_calc_example : FuelCalc :=
  { fuel_per_kwh := 1
    fuel_used_current := 2000
    fuel_used_recommended := 1800
    fuel_cost_per_unit := 300
    fuel_unit := "1000Nm3"
    co2_saved := 0.4 }

/-! ## Helper lemmas -/

lemma pyInt_eq_floor (q : ℚ) (h : 0 ≤ q) : pyInt q = ⌊q⌋ := by
  unfold pyInt
  rw [Int.tdiv_eq_ediv (Rat.num_nonneg.mpr h) (Int.natCast_nonneg q.den)]
  exact Rat.floor_def.symm

lemma pyInt_eq_ceil (q : ℚ) (h : q ≤ 0) : pyInt q = ⌈q⌉ := by
  have hq : 0 ≤ -q := neg_nonneg.mpr h
  have h1 : pyInt (-q) = ⌊-q⌋ := pyInt_eq_floor (-q) hq
  unfold pyInt at h1 ⊢
  rw [Rat.neg_num, Rat.neg_den, Int.neg_tdiv] at h1
  have h2 : q.num.tdiv q.den = -⌊-q⌋ := by omega
  rw [h2, Int.floor_neg, neg_neg]

lemma round_half_even_close (q : ℚ) : |((round_half_even q : ℤ) : ℚ) - q| ≤ 1/2 := by
  have hle : ((⌊q⌋ : ℤ) : ℚ) ≤ q := Int.floor_le q
  have hlt : q < ((⌊q⌋ : ℤ) : ℚ) + 1 := Int.lt_floor_add_one q
  unfold round_half_even
  split_ifs with h1 h2 h3
  · rw [abs_le]; constructor <;> linarith
  · rw [abs_le]; push_cast; constructor <;> linarith
  · rw [abs_le]
    have : q - ((⌊q⌋ : ℤ) : ℚ) = 1/2 := le_antisymm (not_lt.mp h2) (not_lt.mp h1)
    constructor <;> linarith
  · rw [abs_le]
    have : q - ((⌊q⌋ : ℤ) : ℚ) = 1/2 := le_antisymm (not_lt.mp h2) (not_lt.mp h1)
    push_cast
    constructor <;> linarith

lemma round4_close (x : ℚ) : |round4 x - x| ≤ 1/20000 := by
  have h := round_half_even_close (x * 10000)
  unfold round4
  have heq : (round_half_even (x * 10000) : ℚ) / 10000 - x =
      ((round_half_even (x * 10000) : ℚ) - x * 10000) / 10000 := by ring
  rw [heq, abs_div]
  rw [show |(10000 : ℚ)| = 10000 by norm_num]
  rw [div_le_iff₀ (by norm_num : (0:ℚ) < 10000)]
  linarith

lemma foldl_append_singleton {α β : Type} (f : α → β) :
    ∀ (l : List α) (acc : List β),
      l.foldl (fun acc2 a => acc2 ++ [f a]) acc = acc ++ l.map f := by
  intro l
  induction l with
  | nil => intro acc; simp
  | cons a l ih => intro acc; simp [ih]

lemma func1_eq_map (store : ModelStore) (sample_input : InputData)
    (forecast : List ForecastDay) :
    func1 store sample_input forecast = forecast.map (make_row store sample_input) := by
  unfold func1
  rw [foldl_append_singleton]
  simp

lemma mem_unique_fuels_aux (fuel : String) :
    ∀ (rows : List SampleRow) (acc : List String),
      fuel ∈ rows.foldl
        (fun acc r => if r.fuel_type ∈ acc then acc else acc ++ [r.fuel_type]) acc ↔
      fuel ∈ acc ∨ ∃ r ∈ rows, r.fuel_type = fuel := by
  intro rows
  induction rows with
  | nil => intro acc; simp
  | cons r rs ih =>
    intro acc
    rw [List.foldl_cons, ih]
    simp only [List.mem_cons, exists_eq_or_imp]
    by_cases hmem : r.fuel_type ∈ acc
    · rw [if_pos hmem]
      constructor
      · rintro (h | h)
        · exact Or.inl h
        · exact Or.inr (Or.inr h)
      · rintro (h | h | h)
        · exact Or.inl h
        · exact Or.inl (by rw [← h]; exact hmem)
        · exact Or.inr h
    · rw [if_neg hmem]
      simp only [List.mem_append, List.mem_singleton]
      constructor
      · rintro ((h | h) | h)
        · exact Or.inl h
        · exact Or.inr (Or.inl h.symm)
        · exact Or.inr (Or.inr h)
      · rintro (h | h | h)
        · exact Or.inl (Or.inl h)
        · exact Or.inl (Or.inr h.symm)
        · exact Or.inr h

lemma mem_unique_fuels (rows : List SampleRow) (fuel : String) :
    fuel ∈ unique_fuels rows ↔ ∃ r ∈ rows, r.fuel_type = fuel := by
  unfold unique_fuels
  rw [mem_unique_fuels_aux]
  simp

lemma train_foldl_fst_mono {M : Type} (fit : RFParams → List SampleRow → M)
    (rows : List SampleRow) (fuel : String) :
    ∀ (fuels : List String) (acc : List String × List (String × M)),
      fuel ∈ acc.1 → fuel ∈ (fuels.foldl (train_step fit rows) acc).1 := by
  intro fuels
  induction fuels with
  | nil => intro acc h; exact h
  | cons f fs ih =>
    intro acc h
    rw [List.foldl_cons]
    apply ih
    unfold train_step
    by_cases h5 : (rows_for rows f).length < 5
    · simp only [if_pos h5]; exact List.mem_append_left _ h
    · simp only [if_neg h5]; exact h

lemma train_foldl_snd_mono {M : Type} (fit : RFParams → List SampleRow → M)
    (rows : List SampleRow) (p : String × M) :
    ∀ (fuels : List String) (acc : List String × List (String × M)),
      p ∈ acc.2 → p ∈ (fuels.foldl (train_step fit rows) acc).2 := by
  intro fuels
  induction fuels with
  | nil => intro acc h; exact h
  | cons f fs ih =>
    intro acc h
    rw [List.foldl_cons]
    apply ih
    unfold train_step
    by_cases h5 : (rows_for rows f).length < 5
    · simp only [if_pos h5]; exact h
    · simp only [if_neg h5]; exact List.mem_append_left _ h

lemma train_foldl_skip_mem {M : Type} (fit : RFParams → List SampleRow → M)
    (rows : List SampleRow) (fuel : String) (h5 : (rows_for rows fuel).length < 5) :
    ∀ (fuels : List String) (acc : List String × List (String × M)),
      fuel ∈ fuels → fuel ∈ (fuels.foldl (train_step fit rows) acc).1 := by
  intro fuels
  induction fuels with
  | nil => intro acc h; exact absurd h (List.not_mem_nil fuel)
  | cons f fs ih =>
    intro acc hmem
    rw [List.foldl_cons]
    rcases List.mem_cons.mp hmem with heq | htail
    · apply train_foldl_fst_mono
      unfold train_step
      rw [← heq, if_pos h5]
      exact List.mem_append_right _ (List.mem_singleton.mpr rfl)
    · exact ih _ htail

lemma train_foldl_no_key {M : Type} (fit : RFParams → List SampleRow → M)
    (rows : List SampleRow) (fuel : String) (h5 : (rows_for rows fuel).length < 5) :
    ∀ (fuels : List String) (acc : List String × List (String × M)),
      (∀ m : M, (fuel, m) ∉ acc.2) →
      ∀ m : M, (fuel, m) ∉ (fuels.foldl (train_step fit rows) acc).2 := by
  intro fuels
  induction fuels with
  | nil => intro acc h; exact h
  | cons f fs ih =>
    intro acc hacc
    rw [List.foldl_cons]
    apply ih
    intro m hm
    unfold train_step at hm
    by_cases hf5 : (rows_for rows f).length < 5
    · rw [if_pos hf5] at hm; exact hacc m hm
    · rw [if_neg hf5] at hm
      rcases List.mem_append.mp hm with h | h
      · exact hacc m h
      · have := List.mem_singleton.mp h
        have hfe : fuel = f := congrArg Prod.fst this
        rw [← hfe] at hf5
        exact hf5 h5

lemma train_foldl_persist {M : Type} (fit : RFParams → List SampleRow → M)
    (rows : List SampleRow) (fuel : String) (h5 : ¬ (rows_for rows fuel).length < 5) :
    ∀ (fuels : List String) (acc : List String × List (String × M)),
      fuel ∈ fuels →
      (fuel, fit trainer_params (rows_for rows fuel)) ∈
        (fuels.foldl (train_step fit rows) acc).2 := by
  intro fuels
  induction fuels with
  | nil => intro acc h; exact absurd h (List.not_mem_nil fuel)
  | cons f fs ih =>
    intro acc hmem
    rw [List.foldl_cons]
    rcases List.mem_cons.mp hmem with heq | htail
    · apply train_foldl_snd_mono
      unfold train_step
      rw [← heq, if_neg h5]
      exact List.mem_append_right _ (List.mem_singleton.mpr rfl)
    · exact ih _ htail

/-! ## Claim theorems -/

/-- C1, counterexample: the claimed range invariant fails on the code.  In
calculate_efficiency the clip to the fuel range happens before the final
noise factor, so a clipped-at-the-minimum coal efficiency times noise 0.995
comes out as 0.3184, below coal's efficiency minimum 0.32; and the inference
engine's calc_recommended_efficiency applies no clamping at all, so at a hot
enough temperature its coal estimate 0.019 also lies below 0.32. -/
theorem clamping_invariant_counterexample :
    calculate_efficiency coalConfig 200 40 1013.25 8 0 0.9 0.995 = 0.3184 ∧
    calculate_efficiency coalConfig 200 40 1013.25 8 0 0.9 0.995 <
      coalConfig.efficiency_range.1 ∧
    ((0.995 : ℚ) ≤ 0.995 ∧ (0.995 : ℚ) ≤ 1.005) ∧
    calc_recommended_efficiency "coal" 500 40 1013.25 = 0.019 ∧
    calc_recommended_efficiency "coal" 500 40 1013.25 < coalConfig.efficiency_range.1 := by
  have hcl : clipped_efficiency coalConfig 200 40 1013.25 8 0 0.9 = 0.32 := by
    simp only [clipped_efficiency, coalConfig]
    norm_num [max_def, min_def]
  have hce : calculate_efficiency coalConfig 200 40 1013.25 8 0 0.9 0.995 = 0.3184 := by
    unfold calculate_efficiency
    rw [hcl]
    norm_num [round4, round_half_even]
  have hre : calc_recommended_efficiency "coal" 500 40 1013.25 = 0.019 := by
    norm_num [calc_recommended_efficiency, base_eff_of]
  refine ⟨hce, ?_, ⟨by norm_num, by norm_num⟩, hre, ?_⟩
  · rw [hce]; norm_num [coalConfig]
  · rw [hre]; norm_num [coalConfig]

/-- C1, amended: the generator's efficiency is clamped to the fuel range
before the noise factor; the returned value, after a noise factor in
[0.995, 1.005] and rounding to 4 decimals, lies in the widened band
[0.995 times the minimum minus 0.00005, 1.005 times the maximum plus
0.00005] but not necessarily in the profile range itself; and the inference
engine's recommended-efficiency estimate is the unclamped product of the
base efficiency with the three weather factors. -/
theorem efficiency_noise_band (config : FuelConfig)
    (temp_C humidity pressure_hPa run_hours : ℚ) (days_since_start : ℤ)
    (load_factor noise : ℚ)
    (hmin : 0 ≤ config.efficiency_range.1)
    (hrange : config.efficiency_range.1 ≤ config.efficiency_range.2)
    (hn1 : 0.995 ≤ noise) (hn2 : noise ≤ 1.005) :
    config.efficiency_range.1 ≤ clipped_efficiency config temp_C humidity pressure_hPa
      run_hours days_since_start load_factor ∧
    clipped_efficiency config temp_C humidity pressure_hPa run_hours days_since_start
      load_factor ≤ config.efficiency_range.2 ∧
    0.995 * config.efficiency_range.1 - 1/20000 ≤ calculate_efficiency config temp_C humidity
      pressure_hPa run_hours days_since_start load_factor noise ∧
    calculate_efficiency config temp_C humidity pressure_hPa run_hours days_since_start
      load_factor noise ≤ 1.005 * config.efficiency_range.2 + 1/20000 ∧
    (∀ ft : String, ∀ t h p : ℚ, calc_recommended_efficiency ft t h p =
      base_eff_of ft * (1 - 0.002 * (t - 25)) * (1 - 0.001 * (h - 40)) *
        (1 + 0.0005 * (p - 1013.25))) := by
  have hc1 : config.efficiency_range.1 ≤ clipped_efficiency config temp_C humidity
      pressure_hPa run_hours days_since_start load_factor := by
    simp only [clipped_efficiency]
    exact le_max_left _ _
  have hc2 : clipped_efficiency config temp_C humidity pressure_hPa run_hours
      days_since_start load_factor ≤ config.efficiency_range.2 := by
    simp only [clipped_efficiency]
    exact max_le hrange (min_le_left _ _)
  have hc0 : 0 ≤ clipped_efficiency config temp_C humidity pressure_hPa run_hours
      days_since_start load_factor := le_trans hmin hc1
  have hn0 : (0 : ℚ) ≤ noise := by linarith
  have hlow : 0.995 * config.efficiency_range.1 ≤ clipped_efficiency config temp_C humidity
      pressure_hPa run_hours days_since_start load_factor * noise := by nlinarith
  have hhigh : clipped_efficiency config temp_C humidity pressure_hPa run_hours
      days_since_start load_factor * noise ≤ 1.005 * config.efficiency_range.2 := by nlinarith
  have hr := abs_le.mp (round4_close (clipped_efficiency config temp_C humidity pressure_hPa
    run_hours days_since_start load_factor * noise))
  have hcalc : calculate_efficiency config temp_C humidity pressure_hPa run_hours
      days_since_start load_factor noise = round4 (clipped_efficiency config temp_C humidity
      pressure_hPa run_hours days_since_start load_factor * noise) := rfl
  refine ⟨hc1, hc2, ?_, ?_, ?_⟩
  · rw [hcalc]; linarith [hr.1]
  · rw [hcalc]; linarith [hr.2]
  · intro ft t h p
    simp only [calc_recommended_efficiency]

/-- C1, witness for the amended theorem: the band holds at a concrete coal
input with noise 1. -/
theorem efficiency_noise_band_witness :
    coalConfig.efficiency_range.1 ≤ clipped_efficiency coalConfig 30 50 1010 20 100 0.8 ∧
    clipped_efficiency coalConfig 30 50 1010 20 100 0.8 ≤ coalConfig.efficiency_range.2 ∧
    0.995 * coalConfig.efficiency_range.1 - 1/20000 ≤
      calculate_efficiency coalConfig 30 50 1010 20 100 0.8 1 ∧
    calculate_efficiency coalConfig 30 50 1010 20 100 0.8 1 ≤
      1.005 * coalConfig.efficiency_range.2 + 1/20000 ∧
    (∀ ft : String, ∀ t h p : ℚ, calc_recommended_efficiency ft t h p =
      base_eff_of ft * (1 - 0.002 * (t - 25)) * (1 - 0.001 * (h - 40)) *
        (1 + 0.0005 * (p - 1013.25))) :=
  efficiency_noise_band coalConfig 30 50 1010 20 100 0.8 1
    (by norm_num [coalConfig]) (by norm_num [coalConfig]) (by norm_num) (by norm_num)

/-- C2, counterexample: at the section-8 scenario weather the code's
recommended efficiency is exactly 1487331153/4000000000, about 0.37183,
not about 0.3749 as the claim's literal says, and the recommended
generation is below 55.8 MW, not about 56.24 MW. -/
theorem scenario_literal_counterexample :
    calc_recommended_efficiency "coal" 30 50 1010 = 1487331153/4000000000 ∧
    calc_recommended_efficiency "coal" 30 50 1010 < 0.372 ∧
    0.3749 - calc_recommended_efficiency "coal" 30 50 1010 > 0.003 ∧
    150 * calc_recommended_efficiency "coal" 30 50 1010 < 55.8 ∧
    56.24 - 150 * calc_recommended_efficiency "coal" 30 50 1010 > 0.4 := by
  norm_num [calc_recommended_efficiency, base_eff_of]

/-- C2, amended: the scenario computation follows the section 4.4 steps
exactly, with recommended efficiency 0.38 times the three weather factors,
equal to 1487331153/4000000000 which is about 0.37183 (not 0.3749), and
recommended generation about 55.775 MW (not 56.24); the downstream fuel,
cost and CO2 figures follow the stated formulas from these exact values. -/
theorem scenario_steps (store : ModelStore) :
    predict_outputs store scenario_input = spec_outcome scenario_input ∧
    (predict_outputs store scenario_input).recommended_efficiency =
      0.38 * (1 - 0.002 * 5) * (1 - 0.001 * 10) * (1 + 0.0005 * (-3.25)) ∧
    (predict_outputs store scenario_input).recommended_efficiency = 1487331153/4000000000 ∧
    (predict_outputs store scenario_input).recommended_generation_mw =
      150 * (1487331153/4000000000) ∧
    (predict_outputs store scenario_input).recommended_generation_mw = 4461993459/80000000 ∧
    (predict_outputs store scenario_input).fuel_used_recommended =
      (4461993459/80000000) * 1000 * 20 * 0.35 / 1000 ∧
    (predict_outputs store scenario_input).fuel_used_recommended = 31233954213/80000000 ∧
    (predict_outputs store scenario_input).fuel_saved = 9000 - 31233954213/80000000 ∧
    (predict_outputs store scenario_input).fuel_saved = 688766045787/80000000 ∧
    (predict_outputs store scenario_input).cost_saved = (688766045787/80000000) * 6000 ∧
    (predict_outputs store scenario_input).co2_saved_tonnes =
      (688766045787/80000000) * 2.42 ∧
    0.3718 < (predict_outputs store scenario_input).recommended_efficiency ∧
    (predict_outputs store scenario_input).recommended_efficiency < 0.3719 ∧
    55.77 < (predict_outputs store scenario_input).recommended_generation_mw ∧
    (predict_outputs store scenario_input).recommended_generation_mw < 55.78 := by
  refine ⟨?_, ?_⟩
  · simp only [predict_outputs, spec_outcome, calc_recommended_efficiency, Outputs.mk.injEq]
  · norm_num [predict_outputs, scenario_input, calc_recommended_efficiency, base_eff_of,
      fuel_per_kwh_map, fuel_cost_map, co2_factor_map]

/-- C3: when no model is persisted for the input's fuel type, inference
substitutes the dummy predictor whose prediction is 0.7 times the maximum
capacity, and the returned output record is still fully populated with the
section 4.4 formulas (it does not depend on the model at all). -/
theorem missing_model_fallback (store : ModelStore) (input_data : InputData)
    (h : store input_data.fuel_type = none) :
    current_generation_mw store input_data = input_data.max_capacity_mw * 0.7 ∧
    predict_outputs store input_data = spec_outcome input_data := by
  constructor
  · unfold current_generation_mw loaded_model
    rw [h]
    rfl
  · simp only [predict_outputs, spec_outcome, calc_recommended_efficiency, Outputs.mk.injEq]

/-- C3, witness: a store with no models at all still yields the fallback
prediction and a fully populated outcome at the scenario input. -/
theorem missing_model_fallback_witness :
    current_generation_mw (fun _ => none) scenario_input =
      scenario_input.max_capacity_mw * 0.7 ∧
    predict_outputs (fun _ => none) scenario_input = spec_outcome scenario_input :=
  missing_model_fallback (fun _ => none) scenario_input rfl

/-- C4: a fuel type outside coal, oil and natural_gas is not rejected; all
four coefficient lookups fall back to the defaults 0.40, 0.3, 500 and 2.5,
and the output record is computed from exactly those defaults. -/
theorem unknown_fuel_defaults (store : ModelStore) (input_data : InputData)
    (h : input_data.fuel_type ∉ (["coal", "oil", "natural_gas"] : List String)) :
    base_eff_of input_data.fuel_type = 0.40 ∧
    fuel_per_kwh_map input_data.fuel_type = 0.3 ∧
    fuel_cost_map input_data.fuel_type = 500 ∧
    co2_factor_map input_data.fuel_type = 2.5 ∧
    (predict_outputs store input_data).recommended_efficiency =
      0.40 * (1 - 0.002 * (input_data.temp_C - 25)) *
        (1 - 0.001 * (input_data.humidity_pct - 40)) *
        (1 + 0.0005 * (input_data.pressure_hPa - 1013.25)) ∧
    (predict_outputs store input_data).recommended_generation_mw =
      input_data.max_capacity_mw * (predict_outputs store input_data).recommended_efficiency ∧
    (predict_outputs store input_data).fuel_used_recommended =
      (predict_outputs store input_data).recommended_generation_mw * 1000 *
        input_data.run_hours * 0.3 / 1000 ∧
    (predict_outputs store input_data).fuel_saved =
      input_data.fuel_used_current - (predict_outputs store input_data).fuel_used_recommended ∧
    (predict_outputs store input_data).cost_saved =
      (predict_outputs store input_data).fuel_saved * 500 ∧
    (predict_outputs store input_data).co2_saved_tonnes =
      (predict_outputs store input_data).fuel_saved * 2.5 := by
  simp only [List.mem_cons, not_or] at h
  obtain ⟨h1, h2, h3, -⟩ := h
  have hb : base_eff_of input_data.fuel_type = 0.40 := by
    simp only [base_eff_of, if_neg h1, if_neg h2, if_neg h3]
  have hk : fuel_per_kwh_map input_data.fuel_type = 0.3 := by
    simp only [fuel_per_kwh_map, if_neg h1, if_neg h2, if_neg h3]
  have hc : fuel_cost_map input_data.fuel_type = 500 := by
    simp only [fuel_cost_map, if_neg h1, if_neg h2, if_neg h3]
  have ho : co2_factor_map input_data.fuel_type = 2.5 := by
    simp only [co2_factor_map, if_neg h1, if_neg h2, if_neg h3]
  refine ⟨hb, hk, hc, ho, ?_, ?_, ?_, ?_, ?_, ?_⟩
  · simp only [predict_outputs, calc_recommended_efficiency, hb]
  · rfl
  · simp only [predict_outputs, hk]
  · rfl
  · simp only [predict_outputs, hc]
  · simp only [predict_outputs, ho]

/-- C4, witness: the defaults apply at a concrete unknown fuel type. -/
theorem unknown_fuel_defaults_witness :
    base_eff_of unknown_input.fuel_type = 0.40 ∧
    fuel_per_kwh_map unknown_input.fuel_type = 0.3 ∧
    fuel_cost_map unknown_input.fuel_type = 500 ∧
    co2_factor_map unknown_input.fuel_type = 2.5 ∧
    (predict_outputs (fun _ => none) unknown_input).recommended_efficiency =
      0.40 * (1 - 0.002 * (unknown_input.temp_C - 25)) *
        (1 - 0.001 * (unknown_input.humidity_pct - 40)) *
        (1 + 0.0005 * (unknown_input.pressure_hPa - 1013.25)) ∧
    (predict_outputs (fun _ => none) unknown_input).recommended_generation_mw =
      unknown_input.max_capacity_mw *
        (predict_outputs (fun _ => none) unknown_input).recommended_efficiency ∧
    (predict_outputs (fun _ => none) unknown_input).fuel_used_recommended =
      (predict_outputs (fun _ => none) unknown_input).recommended_generation_mw * 1000 *
        unknown_input.run_hours * 0.3 / 1000 ∧
    (predict_outputs (fun _ => none) unknown_input).fuel_saved =
      unknown_input.fuel_used_current -
        (predict_outputs (fun _ => none) unknown_input).fuel_used_recommended ∧
    (predict_outputs (fun _ => none) unknown_input).cost_saved =
      (predict_outputs (fun _ => none) unknown_input).fuel_saved * 500 ∧
    (predict_outputs (fun _ => none) unknown_input).co2_saved_tonnes =
      (predict_outputs (fun _ => none) unknown_input).fuel_saved * 2.5 :=
  unknown_fuel_defaults (fun _ => none) unknown_input (by decide)

/-- C5: every quantity in the forecast rows passes through f2, which is
truncation toward zero at two decimal places: on nonnegative values it is
the floor of 100 times the value over 100, on nonpositive values the
ceiling, always within 1/100 of the untruncated value on the zero side; in
particular 0.019 becomes 0.01, not the nearest-rounded 0.02. -/
theorem truncation_two_decimals :
    (∀ x : ℚ, 0 ≤ x → f2 x = (⌊x * 100⌋ : ℚ) / 100 ∧ f2 x ≤ x ∧ x - f2 x < 1/100) ∧
    (∀ x : ℚ, x ≤ 0 → f2 x = (⌈x * 100⌉ : ℚ) / 100 ∧ x ≤ f2 x ∧ f2 x - x < 1/100) ∧
    f2 (19/1000) = 1/100 ∧
    (∀ (store : ModelStore) (sample_input : InputData) (forecast : List ForecastDay),
      func1 store sample_input forecast = forecast.map (make_row store sample_input)) ∧
    (∀ (store : ModelStore) (sample_input : InputData) (day : ForecastDay),
      make_row store sample_input day =
        { date := day.date
          recommended_generation_mw :=
            f2 (predict_outputs store (weather_subst sample_input day)).recommended_generation_mw
          fuel_used_recommended :=
            f2 (predict_outputs store (weather_subst sample_input day)).fuel_used_recommended
          fuel_saved := f2 (predict_outputs store (weather_subst sample_input day)).fuel_saved
          cost_saved := f2 (predict_outputs store (weather_subst sample_input day)).cost_saved
          co2_saved_tonnes :=
            f2 (predict_outputs store (weather_subst sample_input day)).co2_saved_tonnes
          recommended_efficiency :=
            f2 (predict_outputs store (weather_subst sample_input day)).recommended_efficiency }) := by
  refine ⟨?_, ?_, ?_, func1_eq_map, fun store sample_input day => rfl⟩
  · intro x hx
    have h100 : (0 : ℚ) ≤ x * 100 := by linarith
    have hp : pyInt (x * 100) = ⌊x * 100⌋ := pyInt_eq_floor _ h100
    have hfl : ((⌊x * 100⌋ : ℤ) : ℚ) ≤ x * 100 := Int.floor_le _
    have hfl2 : x * 100 < ((⌊x * 100⌋ : ℤ) : ℚ) + 1 := Int.lt_floor_add_one _
    have heq : f2 x = (⌊x * 100⌋ : ℚ) / 100 := by unfold f2; rw [hp]
    refine ⟨heq, ?_, ?_⟩ <;> rw [heq] <;> linarith
  · intro x hx
    have h100 : x * 100 ≤ 0 := by linarith
    have hp : pyInt (x * 100) = ⌈x * 100⌉ := pyInt_eq_ceil _ h100
    have hcl : x * 100 ≤ ((⌈x * 100⌉ : ℤ) : ℚ) := Int.le_ceil _
    have hcl2 : ((⌈x * 100⌉ : ℤ) : ℚ) < x * 100 + 1 := Int.ceil_lt_add_one _
    have heq : f2 x = (⌈x * 100⌉ : ℚ) / 100 := by unfold f2; rw [hp]
    refine ⟨heq, ?_, ?_⟩ <;> rw [heq] <;> linarith
  · have hp : pyInt ((19 : ℚ)/1000 * 100) = ⌊(19 : ℚ)/1000 * 100⌋ :=
      pyInt_eq_floor _ (by norm_num)
    unfold f2
    rw [hp]
    norm_num

/-- C5, witness: the truncation characterization at the nonnegative value
3.7. -/
theorem truncation_two_decimals_witness :
    f2 3.7 = (⌊(3.7 : ℚ) * 100⌋ : ℚ) / 100 ∧ f2 3.7 ≤ 3.7 ∧ (3.7 : ℚ) - f2 3.7 < 1/100 :=
  truncation_two_decimals.1 3.7 (by norm_num)

/-- C6: each fuel type present in the sample store with fewer than 5 rows
is warned about and gets no persisted model, while each fuel type with at
least 5 rows gets a model fitted with the literal hyperparameters
(200 trees, depth 12, seed 42, 80/20 split) on exactly its rows, persisted
keyed by the fuel type; the loop itself is total, so the run never fails. -/
theorem training_skip_and_persist {M : Type} (fit : RFParams → List SampleRow → M)
    (rows : List SampleRow) (fuel : String)
    (hpresent : ∃ r ∈ rows, r.fuel_type = fuel) :
    ((rows_for rows fuel).length < 5 →
      fuel ∈ (train_loop fit rows).1 ∧
      ∀ m : M, (fuel, m) ∉ (train_loop fit rows).2) ∧
    (5 ≤ (rows_for rows fuel).length →
      (fuel, fit trainer_params (rows_for rows fuel)) ∈ (train_loop fit rows).2) ∧
    trainer_params.n_estimators = 200 ∧
    trainer_params.max_depth = 12 ∧
    trainer_params.test_size = 1/5 ∧
    trainer_params.split_random_state = 42 ∧
    trainer_params.random_state = 42 := by
  have hmem : fuel ∈ unique_fuels rows := (mem_unique_fuels rows fuel).mpr hpresent
  unfold train_loop
  refine ⟨fun h5 => ⟨?_, ?_⟩, fun h5 => ?_, rfl, rfl, by norm_num [trainer_params], rfl, rfl⟩
  · exact train_foldl_skip_mem fit rows fuel h5 _ _ hmem
  · exact train_foldl_no_key fit rows fuel h5 _ _
      (fun m hm => absurd hm (List.not_mem_nil _))
  · exact train_foldl_persist fit rows fuel (not_lt.mpr h5) _ _ hmem

/-- C6, witness: with four coal rows and five oil rows, coal is skipped
(warned, no model) and oil is trained and persisted. -/
theorem training_skip_and_persist_witness :
    ("coal" ∈ (train_loop unit_fit mixed_rows).1 ∧
      ∀ m : Unit, ("coal", m) ∉ (train_loop unit_fit mixed_rows).2) ∧
    ("oil", unit_fit trainer_params (rows_for mixed_rows "oil")) ∈
      (train_loop unit_fit mixed_rows).2 := by
  constructor
  · exact (training_skip_and_persist unit_fit mixed_rows "coal" (by decide)).1 (by decide)
  · exact (training_skip_and_persist unit_fit mixed_rows "oil" (by decide)).2.1 (by decide)

/-- C7: whenever a training run completes (returns a result rather than the
empty-store abort), the sample store it leaves behind keeps exactly the
original header and no data rows, and the persisted models and warnings are
computed from the rows as they stood before the truncation. -/
theorem sample_store_truncation {M : Type} (fit : RFParams → List SampleRow → M)
    (csv : Csv) (warnings : List String) (models : List (String × M)) (cleared : Csv)
    (h : trainer_main fit csv = some (warnings, models, cleared)) :
    cleared.header = csv.header ∧
    cleared.rows = [] ∧
    models = (train_loop fit csv.rows).2 ∧
    warnings = (train_loop fit csv.rows).1 := by
  unfold trainer_main at h
  split_ifs at h with hguard
  injection h with h1
  have hw : (train_loop fit csv.rows).1 = warnings := congrArg (fun t => t.1) h1
  have hm : (train_loop fit csv.rows).2 = models := congrArg (fun t => t.2.1) h1
  have hc : Csv.mk csv.header [] = cleared := congrArg (fun t => t.2.2) h1
  rw [← hc]
  exact ⟨rfl, rfl, hm.symm, hw.symm⟩

/-- C7, witness: on a store holding only the header, training completes,
leaves header-only state, and produces the empty model and warning lists. -/
theorem sample_store_truncation_witness :
    (Csv.mk ["timestamp", "fuel_type"] []).header = header_csv.header ∧
    (Csv.mk ["timestamp", "fuel_type"] []).rows = ([] : List SampleRow) ∧
    ([] : List (String × Unit)) = (train_loop unit_fit header_csv.rows).2 ∧
    ([] : List String) = (train_loop unit_fit header_csv.rows).1 :=
  sample_store_truncation unit_fit header_csv [] [] (Csv.mk ["timestamp", "fuel_type"] []) rfl

/-- C8: the forecast orchestrator returns one row per weather day in input
order, each row obtained by running the inference engine on the caller's
input with only the three weather fields replaced by that day's values; the
four non-weather fields are held constant across days and no state crosses
days (the per-day function is applied independently via map). -/
theorem forecast_orchestration (store : ModelStore) (sample_input : InputData)
    (forecast : List ForecastDay) :
    (func1 store sample_input forecast).length = forecast.length ∧
    func1 store sample_input forecast = forecast.map (make_row store sample_input) ∧
    (∀ day : ForecastDay,
      (weather_subst sample_input day).fuel_type = sample_input.fuel_type ∧
      (weather_subst sample_input day).max_capacity_mw = sample_input.max_capacity_mw ∧
      (weather_subst sample_input day).run_hours = sample_input.run_hours ∧
      (weather_subst sample_input day).fuel_used_current = sample_input.fuel_used_current ∧
      (weather_subst sample_input day).temp_C = day.temp_C ∧
      (weather_subst sample_input day).humidity_pct = day.humidity_pct ∧
      (weather_subst sample_input day).pressure_hPa = day.pressure_hPa) ∧
    (∀ day : ForecastDay, (make_row store sample_input day).date = day.date ∧
      (make_row store sample_input day).recommended_efficiency =
        f2 (predict_outputs store (weather_subst sample_input day)).recommended_efficiency) := by
  refine ⟨?_, func1_eq_map store sample_input forecast, ?_, ?_⟩
  · rw [func1_eq_map]
    exact List.length_map forecast _
  · intro day
    exact ⟨rfl, rfl, rfl, rfl, rfl, rfl, rfl⟩
  · intro day
    exact ⟨rfl, rfl⟩

/-- C9: the generator's CO2-saved conversion is exactly per fuel type: coal
multiplies the fuel-use difference by the CO2 factor directly, oil first
converts both fuel quantities from liters to tonnes via density over 1000
and then multiplies, and natural gas divides by 1000 for the
per-1000-Nm3 factor basis. -/
theorem generator_co2_conversions
    (current_generation_mw base_generation run_hours heat_rate_kcal_per_kwh cost_draw : ℚ) :
    (∀ fc : FuelCalc,
      fuel_specific_calc "coal" coalConfig current_generation_mw base_generation run_hours
        heat_rate_kcal_per_kwh cost_draw = some fc →
      fc.co2_saved = (fc.fuel_used_current - fc.fuel_used_recommended) *
        coalConfig.co2_factor) ∧
    (∀ fc : FuelCalc,
      fuel_specific_calc "oil" oilConfig current_generation_mw base_generation run_hours
        heat_rate_kcal_per_kwh cost_draw = some fc →
      fc.co2_saved = (fc.fuel_used_current * oilConfig.density / 1000 -
        fc.fuel_used_recommended * oilConfig.density / 1000) * oilConfig.co2_factor) ∧
    (∀ fc : FuelCalc,
      fuel_specific_calc "natural_gas" naturalGasConfig current_generation_mw base_generation
        run_hours heat_rate_kcal_per_kwh cost_draw = some fc →
      fc.co2_saved = (fc.fuel_used_current - fc.fuel_used_recommended) *
        naturalGasConfig.co2_factor / 1000) := by
  refine ⟨?_, ?_, ?_⟩
  · intro fc h
    unfold fuel_specific_calc at h
    rw [if_pos rfl] at h
    obtain rfl := (Option.some.injEq _ _).mp h
    rfl
  · intro fc h
    unfold fuel_specific_calc at h
    rw [if_neg (by decide), if_pos rfl] at h
    obtain rfl := (Option.some.injEq _ _).mp h
    rfl
  · intro fc h
    unfold fuel_specific_calc at h
    rw [if_neg (by decide), if_neg (by decide), if_pos rfl] at h
    obtain rfl := (Option.some.injEq _ _).mp h
    rfl

/-- C9, witness: the three conversions at concrete branch outputs. -/
theorem generator_co2_conversions_witness :
    coal_calc_example.co2_saved =
      (coal_calc_example.fuel_used_current - coal_calc_example.fuel_used_recommended) *
        coalConfig.co2_factor ∧
    oil_calc_example.co2_saved =
      (oil_calc_example.fuel_used_current * oilConfig.density / 1000 -
        oil_calc_example.fuel_used_recommended * oilConfig.density / 1000) *
        oilConfig.co2_factor ∧
    gas_calc_example.co2_saved =
      (gas_calc_example.fuel_used_current - gas_calc_example.fuel_used_recommended) *
        naturalGasConfig.co2_factor / 1000 := by
  refine ⟨?_, ?_, ?_⟩
  · refine (generator_co2_conversions 100 90 20 7000 6000).1 coal_calc_example ?_
    simp only [fuel_specific_calc, if_pos, coalConfig, coal_calc_example, Option.some.injEq,
      FuelCalc.mk.injEq]
    norm_num
  · refine (generator_co2_conversions 100 90 20 8500 700).2.1 oil_calc_example ?_
    rw [fuel_specific_calc, if_neg (by decide), if_pos rfl]
    simp only [oilConfig, oil_calc_example, Option.some.injEq, FuelCalc.mk.injEq]
    norm_num
  · refine (generator_co2_conversions 100 90 20 8500 300).2.2 gas_calc_example ?_
    rw [fuel_specific_calc, if_neg (by decide), if_neg (by decide), if_pos rfl]
    simp only [naturalGasConfig, gas_calc_example, Option.some.injEq, FuelCalc.mk.injEq]
    norm_num

/-- C10: the three savings outputs are exactly linear in the fuel saved:
fuel saved is the caller's current fuel use minus the recommended fuel use,
cost saved scales it by the fuel cost coefficient, CO2 saved by the CO2
factor; both coefficients are positive for every fuel type, there is no
clamping at zero, so when current use is below recommended use all three
savings are strictly negative. -/
theorem savings_linear_relations (store : ModelStore) (input_data : InputData) :
    (predict_outputs store input_data).fuel_saved =
      input_data.fuel_used_current - (predict_outputs store input_data).fuel_used_recommended ∧
    (predict_outputs store input_data).cost_saved =
      (predict_outputs store input_data).fuel_saved * fuel_cost_map input_data.fuel_type ∧
    (predict_outputs store input_data).co2_saved_tonnes =
      (predict_outputs store input_data).fuel_saved * co2_factor_map input_data.fuel_type ∧
    0 < fuel_cost_map input_data.fuel_type ∧
    0 < co2_factor_map input_data.fuel_type ∧
    (input_data.fuel_used_current < (predict_outputs store input_data).fuel_used_recommended →
      (predict_outputs store input_data).fuel_saved < 0 ∧
      (predict_outputs store input_data).cost_saved < 0 ∧
      (predict_outputs store input_data).co2_saved_tonnes < 0) := by
  have hcost : 0 < fuel_cost_map input_data.fuel_type := by
    unfold fuel_cost_map
    split_ifs <;> norm_num
  have hco2 : 0 < co2_factor_map input_data.fuel_type := by
    unfold co2_factor_map
    split_ifs <;> norm_num
  refine ⟨rfl, rfl, rfl, hcost, hco2, ?_⟩
  intro h
  have hfs : (predict_outputs store input_data).fuel_saved < 0 := by
    have : (predict_outputs store input_data).fuel_saved =
        input_data.fuel_used_current -
          (predict_outputs store input_data).fuel_used_recommended := rfl
    rw [this]
    linarith
  refine ⟨hfs, ?_, ?_⟩
  · exact mul_neg_of_neg_of_pos hfs hcost
  · exact mul_neg_of_neg_of_pos hfs hco2

/-- C10, witness: with zero reported current fuel use at the coal scenario,
all three savings come out strictly negative. -/
theorem savings_linear_relations_witness :
    (predict_outputs (fun _ => none) deficit_input).fuel_saved < 0 ∧
    (predict_outputs (fun _ => none) deficit_input).cost_saved < 0 ∧
    (predict_outputs (fun _ => none) deficit_input).co2_saved_tonnes < 0 := by
  refine (savings_linear_relations (fun _ => none) deficit_input).2.2.2.2.2 ?_
  norm_num [predict_outputs, deficit_input, calc_recommended_efficiency, base_eff_of,
    fuel_per_kwh_map]

end EcoBot
